import Mathlib

/-!
Shallow embedding of the contract-invocation client of this repository:
the `useContract` composable (conversion helpers, `fetchData` race
protection, `getWriteContract` preconditions, `write` preflight and error
decoding) and the RPC provider fallback module (`getRpcProvider`,
`getRpcEndpoints`, the endpoint table and the provider cache).

JavaScript runtime values that the code inspects with `typeof` are
modelled by the inductive `JSValue`; JavaScript numbers are modelled as
either `NaN` or an integer (the fractional values of IEEE doubles play no
role in any property below beyond the existence of the non-integer value
`NaN`). Thrown JavaScript errors are modelled by `JsError` (an error
object with the optional revert-payload fields the code reads) and
`Thrown` (either such a raw error, or an `Error` constructed from a
message string inside the composable). Asynchronous interleaving is
modelled by explicit state passing: each `fetchData` call is split into
its synchronous start (`fetchStart`) and its completion
(`fetchComplete`), between which other calls may run.
-/

deriving instance DecidableEq for Except

namespace Web3Client

/-- A JavaScript number: either `NaN` or an integer value. -/
inductive JSNumber
  | nan
  | int (i : Int)
  deriving DecidableEq, Repr

/-- A JavaScript runtime value as discriminated by `typeof` in the
conversion helpers: number, bigint, string, boolean, `null`, `undefined`,
or any other object. -/
inductive JSValue
  | num (n : JSNumber)
  | bigint (i : Int)
  | str (s : String)
  | bool (b : Bool)
  | nullV
  | undef
  | obj
  deriving DecidableEq, Repr

/-- The exception raised by the ECMAScript `BigInt` conversion on a
number argument that is not an integer (for example `NaN`). -/
inductive JsException
  | rangeError
  deriving DecidableEq, Repr

/-- ECMAScript whitespace characters relevant to string trimming. -/
def jsWhitespace (c : Char) : Bool :=
  c = ' ' || c = '\t' || c = '\n' || c = '\r'

/-- Strip leading and trailing whitespace from a character list. -/
def trimChars (cs : List Char) : List Char :=
  ((cs.dropWhile jsWhitespace).reverse.dropWhile jsWhitespace).reverse

/-- Read a non-empty run of decimal digits as a natural number;
`none` when the list is empty or holds a non-digit. -/
def decDigits (cs : List Char) : Option Nat :=
  if cs.isEmpty then none
  else cs.foldl
    (fun acc c => acc.bind (fun n => if c.isDigit then some (n * 10 + (c.toNat - 48)) else none))
    (some 0)

/-- Models the ECMAScript `Number(string)` conversion, restricted to
optionally signed decimal integer literals surrounded by whitespace: the
empty (all-whitespace) string converts to `0`, a signed digit run to its
value, and every other string to `NaN`. Fractional, exponent and
radix-prefixed literals are outside the model; they only enlarge the set
of strings that do not convert to `NaN`. -/
def jsStringToNumber (s : String) : JSNumber :=
  match trimChars s.toList with
  | [] => JSNumber.int 0
  | '-' :: rest =>
    match decDigits rest with
    | some n => JSNumber.int (-(n : Int))
    | none => JSNumber.nan
  | '+' :: rest =>
    match decDigits rest with
    | some n => JSNumber.int (n : Int)
    | none => JSNumber.nan
  | cs =>
    match decDigits cs with
    | some n => JSNumber.int (n : Int)
    | none => JSNumber.nan

/-- Models the ECMAScript `BigInt(string)` conversion: the empty
(all-whitespace) string converts to `0n`, a signed decimal digit run to
its value, and every other string throws (`none`). -/
def jsStringToBigInt (s : String) : Option Int :=
  match trimChars s.toList with
  | [] => some 0
  | '-' :: rest => (decDigits rest).map (fun n => -(n : Int))
  | '+' :: rest => (decDigits rest).map (fun n => (n : Int))
  | cs => (decDigits cs).map (fun n => (n : Int))

/-- Models the ECMAScript `BigInt(number)` conversion: an integer number
converts to the same integer, `NaN` throws a `RangeError`. -/
def jsBigIntOfNumber : JSNumber → Except JsException Int
  | JSNumber.nan => Except.error JsException.rangeError
  | JSNumber.int i => Except.ok i

/-- The JavaScript comparison `v !== 0` on a number: `NaN !== 0` holds. -/
def jsNumNeZero : JSNumber → Bool
  | JSNumber.nan => true
  | JSNumber.int i => i != 0

/-- `asBigInt` from `useContract`: bigint inputs pass through, number
inputs go through `BigInt(v)` (which throws on `NaN`), string inputs go
through `BigInt(v)` inside a try/catch that yields the fallback, and
every other input yields the fallback. -/
def asBigInt (v : JSValue) (fallback : Int) : Except JsException Int :=
  match v with
  | JSValue.bigint i => Except.ok i
  | JSValue.num n => jsBigIntOfNumber n
  | JSValue.str s => Except.ok ((jsStringToBigInt s).getD fallback)
  | _ => Except.ok fallback

/-- `asBoolean` from `useContract`: booleans pass through, bigints and
numbers compare against zero, strings compare against the literals
"true" and "1", and every other input yields the fallback. -/
def asBoolean (v : JSValue) (fallback : Bool) : Bool :=
  match v with
  | JSValue.bool b => b
  | JSValue.bigint i => i != 0
  | JSValue.num n => jsNumNeZero n
  | JSValue.str s => s == "true" || s == "1"
  | _ => fallback

/-- `asNumber` from `useContract`: numbers pass through, bigints and
strings go through `Number(v)`, and every other input yields the
fallback. -/
def asNumber (v : JSValue) (fallback : JSNumber) : JSNumber :=
  match v with
  | JSValue.num n => n
  | JSValue.bigint i => JSNumber.int i
  | JSValue.str s => jsStringToNumber s
  | _ => fallback

/-- `asString` from `useContract`: strings pass through, every other
input yields the fallback. -/
def asString (v : JSValue) (fallback : String) : String :=
  match v with
  | JSValue.str s => s
  | _ => fallback

/-- A thrown JavaScript error object, with the optional revert-payload
fields `write`'s decoder reads: `.data`, `.error.data` and
`.info.error.data` (the latter two collapsed to the string they reach,
`none` when any link of the optional chain is absent). -/
structure JsError where
  message : String
  data : Option String
  errorData : Option String
  infoErrorData : Option String
  deriving DecidableEq, Repr

/-- A value thrown inside the composable: either an underlying error
rethrown as-is, or a fresh `Error` built from a message string. -/
inductive Thrown
  | raw (e : JsError)
  | msg (s : String)
  deriving DecidableEq, Repr

/-- JavaScript `try { body } catch (e) { handler e }`: a successful body
passes through, a throw from anywhere inside the body — including a
`throw` the body itself performs as its last statement — reaches the
handler. -/
def jsTry {α : Type} (body : Except Thrown α) (handler : Thrown → Except Thrown α) :
    Except Thrown α :=
  match body with
  | Except.ok a => Except.ok a
  | Except.error e => handler e

/-- JavaScript truthiness of an optional string field: absent or empty
strings are falsy. -/
def jsTruthyStr : Option String → Option String
  | some s => if s = "" then none else some s
  | none => none

/-- `extractRevertData` from `useContract`:
`e?.data || e?.error?.data || e?.info?.error?.data`, viewed through the
`if (data)` test at every use site. -/
def extractRevertData (e : JsError) : Option String :=
  match jsTruthyStr e.data with
  | some d => some d
  | none =>
    match jsTruthyStr e.errorData with
    | some d => some d
    | none => jsTruthyStr e.infoErrorData

/- ### The fetchData race protection -/

/-- The per-client-instance mutable state read and written by
`fetchData`: the monotonic token counter `latestFetchId` and the
`loading` indicator. -/
structure FetchState where
  latestFetchId : Nat
  loading : Bool
  deriving DecidableEq, Repr

/-- The synchronous prefix of `fetchData`: issue
`fetchId = ++latestFetchId` and set `loading = true`. Returns the token
handed to this call together with the updated instance state. -/
def fetchStart (s : FetchState) : Nat × FetchState :=
  let fetchId := s.latestFetchId + 1
  (fetchId, { latestFetchId := fetchId, loading := true })

/-- The completion of one `fetchData` call, run when its awaited
`fetcher` settles with `outcome` while the instance is in state `s`
(other calls may have run during the await and bumped
`latestFetchId`). Mirrors the source's `try`/`catch`/`finally`:
the `try` block rethrows a stale success as `Error('Stale fetch
result')`; the `catch` block rethrows the caught error only when the
token is still the latest and otherwise throws a fresh
`Error('Stale fetch result')`; the `finally` block clears `loading`
only when the token is still the latest. -/
def fetchComplete {α : Type} (fetchId : Nat) (outcome : Except JsError α) (s : FetchState) :
    Except Thrown α × FetchState :=
  let attempt : Except Thrown α :=
    jsTry
      (match outcome with
       | Except.error e => Except.error (Thrown.raw e)
       | Except.ok v =>
         if fetchId ≠ s.latestFetchId then Except.error (Thrown.msg "Stale fetch result")
         else Except.ok v)
      (fun e =>
        if fetchId = s.latestFetchId then Except.error e
        else Except.error (Thrown.msg "Stale fetch result"))
  (attempt, if fetchId = s.latestFetchId then { s with loading := false } else s)

/- ### The RPC provider fallback module (src/utils/rpc-provider.ts) -/

/-- The static `RPC_ENDPOINTS` table: per-chain ordered fallback lists
of endpoint URLs; `none` models the absence of an entry (JavaScript
`undefined`). -/
def RPC_ENDPOINTS : Nat → Option (List String) := fun chainId =>
  if chainId = 56 then
    some ["https://bsc-rpc.publicnode.com", "https://bsc.blockrazor.xyz", "https://bsc.drpc.org"]
  else if chainId = 97 then
    some ["https://bsc-testnet-rpc.publicnode.com", "https://bsc-testnet.public.blastapi.io",
          "https://bsc-testnet.drpc.org"]
  else if chainId = 1 then
    some ["https://ethereum-rpc.publicnode.com", "https://0xrpc.io/eth", "https://eth.drpc.org"]
  else if chainId = 137 then
    some ["https://polygon-rpc.com", "https://polygon.drpc.org", "https://rpc.ankr.com/polygon"]
  else if chainId = 42161 then
    some ["https://arb1.arbitrum.io/rpc", "https://arbitrum.drpc.org",
          "https://rpc.ankr.com/arbitrum"]
  else if chainId = 8453 then
    some ["https://mainnet.base.org", "https://base-rpc.publicnode.com", "https://base.drpc.org"]
  else none

/-- The `providerCache` map from chain id to the cached provider, a
provider being identified by the endpoint URL it was constructed
from. -/
abbrev ProviderCache := List (Nat × String)

/-- `providerCache.get(chainId)` (with `has` folded in). -/
def cacheGet (c : ProviderCache) (chainId : Nat) : Option String :=
  (c.find? (fun p => p.1 == chainId)).map (fun p => p.2)

/-- `providerCache.delete(chainId)`. -/
def cacheDelete (c : ProviderCache) (chainId : Nat) : ProviderCache :=
  c.filter (fun p => p.1 != chainId)

/-- `providerCache.set(chainId, provider)`. -/
def cacheSet (c : ProviderCache) (chainId : Nat) (url : String) : ProviderCache :=
  (chainId, url) :: cacheDelete c chainId

/-- The network environment of one `getRpcProvider` call: whether
constructing a `JsonRpcProvider` against an endpoint and probing it with
`getBlockNumber()` succeeds. A cached provider is probed with the same
oracle at the URL it was built from. -/
structure RpcEnv where
  probeOk : String → Bool

/-- The failures `getRpcProvider` can throw. -/
inductive RpcFailure
  | NoEndpointsConfigured (chainId : Nat)
  | AllEndpointsFailed (chainId : Nat)
  deriving DecidableEq, Repr

/-- The `for (const endpoint of endpoints)` loop of `getRpcProvider`:
try each endpoint in order; the first whose connection and probe succeed
is cached and returned, failures are skipped; when the list is exhausted
throw `AllEndpointsFailed`. -/
def tryEndpointList (env : RpcEnv) (chainId : Nat) (cache : ProviderCache) :
    List String → Except RpcFailure String × ProviderCache
  | [] => (Except.error (RpcFailure.AllEndpointsFailed chainId), cache)
  | endpoint :: rest =>
    if env.probeOk endpoint then (Except.ok endpoint, cacheSet cache chainId endpoint)
    else tryEndpointList env chainId cache rest

/-- The body of `getRpcProvider` after the cached-provider block (the
code the cache miss and the cache eviction both fall through to): look
up the endpoint table, throw `NoEndpointsConfigured` when the entry is
absent or empty, otherwise run the fallback loop. -/
def getRpcProviderFresh (env : RpcEnv) (cache : ProviderCache) (chainId : Nat) :
    Except RpcFailure String × ProviderCache :=
  match RPC_ENDPOINTS chainId with
  | none => (Except.error (RpcFailure.NoEndpointsConfigured chainId), cache)
  | some endpoints =>
    if endpoints.isEmpty then (Except.error (RpcFailure.NoEndpointsConfigured chainId), cache)
    else tryEndpointList env chainId cache endpoints

/-- `getRpcProvider(chainId)`: when a provider is cached for the chain,
probe it — probe success returns it with the cache unchanged, probe
failure deletes it from the cache and falls through; then the fresh
acquisition body runs. -/
def getRpcProvider (env : RpcEnv) (cache : ProviderCache) (chainId : Nat) :
    Except RpcFailure String × ProviderCache :=
  match cacheGet cache chainId with
  | some cachedProvider =>
    if env.probeOk cachedProvider then (Except.ok cachedProvider, cache)
    else getRpcProviderFresh env (cacheDelete cache chainId) chainId
  | none => getRpcProviderFresh env cache chainId

/-- `clearProviderCache()`: evict every cached handle. -/
def clearProviderCache (_ : ProviderCache) : ProviderCache := []

/-- `getRpcEndpoints(chainId)`: `RPC_ENDPOINTS[chainId] || []`. -/
def getRpcEndpoints (chainId : Nat) : List String :=
  (RPC_ENDPOINTS chainId).getD []

/- ### Connection selection and the write path (useContract) -/

/-- The snapshot of the web3 store that `useContract` polls:
`isConnected`, `chainId` (`none` models `null`) and
`connectedWallet?.provider` (`none` when absent; a wallet channel is
identified by a number). -/
structure Web3StoreState where
  isConnected : Bool
  chainId : Option Nat
  walletProvider : Option Nat
  deriving DecidableEq, Repr

/-- The `ContractConfig` the composable is built over (the ABI itself
is opaque here; its error dictionary enters through `WriteEnv`). -/
structure ContractConfig where
  address : String
  chainId : Nat
  deriving DecidableEq, Repr

/-- The connection a contract instance executes against: either the
signer channel derived from the connected wallet, or a public fallback
RPC endpoint. -/
inductive Connection
  | signer (walletProvider : Nat)
  | rpc (endpoint : String)
  deriving DecidableEq, Repr

/-- The WrongNetwork error message built by `getWriteContract`. -/
def wrongNetworkMessage (chainId : Nat) : String :=
  "Wrong network. Please switch to chain " ++ toString chainId

/-- `getWriteContract`: throw `Error('Wallet not connected')` when the
store is not connected or exposes no wallet channel; throw the
WrongNetwork error when the store's active chain differs from the
descriptor's chain; otherwise return a contract bound to the signer
derived from the wallet channel. -/
def getWriteContract (store : Web3StoreState) (config : ContractConfig) :
    Except Thrown Connection :=
  if !store.isConnected || store.walletProvider.isNone then
    Except.error (Thrown.msg "Wallet not connected")
  else if store.chainId ≠ some config.chainId then
    Except.error (Thrown.msg (wrongNetworkMessage config.chainId))
  else
    Except.ok (Connection.signer (store.walletProvider.getD 0))

/-- The environment of one `getReadContract` call: the RPC probe oracle
plus whether constructing a `BrowserProvider` over the wallet channel
succeeds (the `try` around the wallet branch). -/
structure ReadEnv where
  rpc : RpcEnv
  browserProviderOk : Bool

/-- `getReadContract`: prefer the wallet channel when connected, on the
matching chain and exposing a provider (falling back on a construction
failure); otherwise delegate to `getRpcProvider`. -/
def getReadContract (env : ReadEnv) (cache : ProviderCache) (store : Web3StoreState)
    (config : ContractConfig) : Except RpcFailure Connection × ProviderCache :=
  if store.isConnected && store.chainId == some config.chainId
      && store.walletProvider.isSome && env.browserProviderOk then
    (Except.ok (Connection.signer (store.walletProvider.getD 0)), cache)
  else
    match getRpcProvider env.rpc cache config.chainId with
    | (Except.ok endpoint, cache') => (Except.ok (Connection.rpc endpoint), cache')
    | (Except.error f, cache') => (Except.error f, cache')

/-- The result of `iface.parseError(data)` when it matches: the error's
name, and its first argument when it carries one. -/
structure DecodedError where
  name : String
  arg0 : Option String
  deriving DecidableEq, Repr

/-- `String(x)` on an optional value: `String(undefined)` is the text
"undefined". -/
def jsStringOfOpt : Option String → String
  | some s => s
  | none => "undefined"

/-- The message the decoder builds from a `parseError` result:
`decoded?.name === 'Error' ? String(decoded?.args?.[0]) :
`${decoded?.name}``, with `decoded = null` producing "undefined". -/
def decodedMessage : Option DecodedError → String
  | some d => if d.name = "Error" then jsStringOfOpt d.arg0 else d.name
  | none => "undefined"

/-- The environment of one `write` call: the store snapshot, the
descriptor, the outcome of the preflight `staticCall` (`none` =
success, `some e` = it threw `e`), the outcome of the real submission,
and the ABI's `parseError` dictionary (total: an unmatched payload
yields `none`, mirroring ethers returning `null`). -/
structure WriteEnv where
  store : Web3StoreState
  config : ContractConfig
  preflight : Option JsError
  submitResult : Except JsError Nat
  parseError : String → Option DecodedError

/-- The network calls `write` can perform, in order. -/
inductive NetworkCall
  | preflightCall
  | submitCall
  deriving DecidableEq, Repr

/-- The revert payload carried by a thrown value: an `Error` built from
a message string has no payload fields. -/
def extractRevertDataThrown : Thrown → Option String
  | Thrown.raw e => extractRevertData e
  | Thrown.msg _ => none

/-- The decode-and-rethrow block `write` runs (twice) on an error whose
revert payload was extracted:
`try { const decoded = iface.parseError(data); const msg = ...;
throw new Error(msg) } catch { throw original }`.
The `throw new Error(msg)` stands inside the same `try` as the decode,
so the block's own `catch` intercepts it and rethrows `original`: the
block never lets the decoded message escape. -/
def decodeRevert (parse : String → Option DecodedError) (data : String) (original : Thrown) :
    Except Thrown Nat :=
  jsTry
    (Except.error (Thrown.msg (decodedMessage (parse data))))
    (fun _ => Except.error original)

/-- The body of `write` inside its outer `try`: obtain the signer-bound
contract (its throws propagate), run the preflight `staticCall`,
on preflight failure run the decode-and-rethrow block (or rethrow the
bare preflight error when no payload is found) and never submit,
on preflight success submit and return the transaction handle. The
second component records the network calls performed. -/
def writeBody (env : WriteEnv) : Except Thrown Nat × List NetworkCall :=
  match getWriteContract env.store env.config with
  | Except.error t => (Except.error t, [])
  | Except.ok _contract =>
    match env.preflight with
    | some preflightErr =>
      (match extractRevertData preflightErr with
       | some data => decodeRevert env.parseError data (Thrown.raw preflightErr)
       | none => Except.error (Thrown.raw preflightErr),
       [NetworkCall.preflightCall])
    | none =>
      match env.submitResult with
      | Except.error submitErr =>
        (Except.error (Thrown.raw submitErr), [NetworkCall.preflightCall, NetworkCall.submitCall])
      | Except.ok tx =>
        (Except.ok tx, [NetworkCall.preflightCall, NetworkCall.submitCall])

/-- `write(method, args)`: the outer `try`/`catch` around `writeBody` —
any error reaching the outer catch goes once more through the
decode-and-rethrow block when it carries a revert payload, and is
rethrown bare otherwise. (The `finally` clearing the `submitting`
indicator runs on every path and does not affect the result.) -/
def write (env : WriteEnv) : Except Thrown Nat × List NetworkCall :=
  match writeBody env with
  | (Except.ok tx, calls) => (Except.ok tx, calls)
  | (Except.error t, calls) =>
    match extractRevertDataThrown t with
    | some data => (decodeRevert env.parseError data t, calls)
    | none => (Except.error t, calls)

/- ## Theorems -/

/-- C1 counterexample: reads A then B issued on a fresh instance, B
completing first with value 7; when A then completes successfully with
value 42, A's caller does not receive 42 — the call rejects with a
"Stale fetch result" error (while B's result stands as observed
state). -/
theorem stale_success_rejected_cex :
    fetchStart { latestFetchId := 0, loading := false } =
      (1, { latestFetchId := 1, loading := true }) ∧
    fetchStart { latestFetchId := 1, loading := true } =
      (2, { latestFetchId := 2, loading := true }) ∧
    fetchComplete 2 (Except.ok 7) { latestFetchId := 2, loading := true } =
      (Except.ok 7, { latestFetchId := 2, loading := false }) ∧
    fetchComplete 1 (Except.ok 42) { latestFetchId := 2, loading := false } =
      (Except.error (Thrown.msg "Stale fetch result"), { latestFetchId := 2, loading := false }) ∧
    (fetchComplete 1 (Except.ok 42) { latestFetchId := 2, loading := false }).1 ≠
      Except.ok 42 := by
  refine ⟨rfl, rfl, rfl, rfl, ?_⟩
  decide

/-- C1 (amended): a read that completes successfully after a newer read
has been issued is discarded for shared observed state — the instance
state is left unchanged — and its caller does not receive the fetched
value either: the call rejects with a "Stale fetch result" error. -/
theorem stale_success_discarded_and_rejected {α : Type} (fetchId : Nat) (v : α)
    (s : FetchState) (h : fetchId ≠ s.latestFetchId) :
    fetchComplete fetchId (Except.ok v) s =
      (Except.error (Thrown.msg "Stale fetch result"), s) := by
  simp [fetchComplete, jsTry, h]

/-- Witness for the amended C1 at token 1 against highest-issued token 2. -/
theorem stale_success_discarded_and_rejected_witness :
    (1 : Nat) ≠ ({ latestFetchId := 2, loading := true } : FetchState).latestFetchId ∧
    fetchComplete 1 (Except.ok (42 : Nat)) { latestFetchId := 2, loading := true } =
      (Except.error (Thrown.msg "Stale fetch result"), { latestFetchId := 2, loading := true }) :=
  ⟨by decide, stale_success_discarded_and_rejected 1 42 _ (by decide)⟩

/-- C3 counterexample: a read that fails after a newer read has been
issued does not deliver the underlying error to its caller — the error
is replaced by a "Stale fetch result" error. -/
theorem stale_error_replaced_cex :
    (fetchComplete 1
      (Except.error ⟨"boom", none, none, none⟩ : Except JsError Nat)
      { latestFetchId := 2, loading := true }).1 =
      Except.error (Thrown.msg "Stale fetch result") ∧
    (fetchComplete 1
      (Except.error ⟨"boom", none, none, none⟩ : Except JsError Nat)
      { latestFetchId := 2, loading := true }).1 ≠
      Except.error (Thrown.raw ⟨"boom", none, none, none⟩) := by
  exact ⟨rfl, by decide⟩

/-- C3 (amended): the error thrown by the underlying invocation reaches
the call's own caller exactly when the call's token still equals the
instance's highest-issued token at completion; a superseded call's
error is replaced by a "Stale fetch result" error. -/
theorem error_delivery_depends_on_token {α : Type} (fetchId : Nat) (e : JsError)
    (s : FetchState) :
    (fetchComplete fetchId (Except.error e : Except JsError α) s).1 =
      (if fetchId = s.latestFetchId then Except.error (Thrown.raw e)
       else Except.error (Thrown.msg "Stale fetch result")) := by
  by_cases h : fetchId = s.latestFetchId <;> simp [fetchComplete, jsTry, h]

/-- C7: a completion clears the loading indicator exactly when its token
equals the instance's highest-issued token at that moment; a completion
with any other token leaves the indicator unchanged (and no completion
moves the token). -/
theorem loading_cleared_iff_latest_token {α : Type} (fetchId : Nat)
    (outcome : Except JsError α) (s : FetchState) :
    (fetchComplete fetchId outcome s).2.loading =
      (if fetchId = s.latestFetchId then false else s.loading) ∧
    (fetchComplete fetchId outcome s).2.latestFetchId = s.latestFetchId := by
  by_cases h : fetchId = s.latestFetchId <;> simp [fetchComplete, h]

/-- C6 counterexample: `asBigInt` applied to the number value `NaN` is
not total — its number branch calls `BigInt(v)` outside any try/catch,
and `BigInt(NaN)` raises a `RangeError`. -/
theorem asBigInt_nan_throws_cex :
    asBigInt (JSValue.num JSNumber.nan) 0 = Except.error JsException.rangeError := rfl

/-- C6 (amended): every conversion helper returns a value using its
explicit fallback default for unrecognized inputs, and `asBoolean`,
`asNumber` and `asString` never throw; `asBigInt` never throws except
when applied to a number value that is not an integer (such as `NaN`),
where the underlying `BigInt` conversion raises a `RangeError`. -/
theorem conversion_helpers_fallback_total (fbI : Int) (fbB : Bool) (fbN : JSNumber)
    (fbS : String) :
    (∀ v, v ≠ JSValue.num JSNumber.nan → ∃ r, asBigInt v fbI = Except.ok r) ∧
    (∀ b, asBigInt (JSValue.bool b) fbI = Except.ok fbI) ∧
    asBigInt JSValue.nullV fbI = Except.ok fbI ∧
    asBigInt JSValue.undef fbI = Except.ok fbI ∧
    asBigInt JSValue.obj fbI = Except.ok fbI ∧
    (∀ s, jsStringToBigInt s = none → asBigInt (JSValue.str s) fbI = Except.ok fbI) ∧
    asBoolean JSValue.nullV fbB = fbB ∧
    asBoolean JSValue.undef fbB = fbB ∧
    asBoolean JSValue.obj fbB = fbB ∧
    (∀ b, asNumber (JSValue.bool b) fbN = fbN) ∧
    asNumber JSValue.nullV fbN = fbN ∧
    asNumber JSValue.undef fbN = fbN ∧
    asNumber JSValue.obj fbN = fbN ∧
    (∀ v, (∀ s, v ≠ JSValue.str s) → asString v fbS = fbS) := by
  refine ⟨?_, fun b => rfl, rfl, rfl, rfl, ?_, rfl, rfl, rfl, fun b => rfl, rfl, rfl, rfl, ?_⟩
  · intro v h
    match v with
    | JSValue.num JSNumber.nan => exact absurd rfl h
    | JSValue.num (JSNumber.int i) => exact ⟨i, rfl⟩
    | JSValue.bigint i => exact ⟨i, rfl⟩
    | JSValue.str s => exact ⟨(jsStringToBigInt s).getD fbI, rfl⟩
    | JSValue.bool b => exact ⟨fbI, rfl⟩
    | JSValue.nullV => exact ⟨fbI, rfl⟩
    | JSValue.undef => exact ⟨fbI, rfl⟩
    | JSValue.obj => exact ⟨fbI, rfl⟩
  · intro s hs
    simp [asBigInt, hs]
  · intro v h
    match v with
    | JSValue.str s => exact absurd rfl (h s)
    | JSValue.num n => rfl
    | JSValue.bigint i => rfl
    | JSValue.bool b => rfl
    | JSValue.nullV => rfl
    | JSValue.undef => rfl
    | JSValue.obj => rfl

/-- Witness for the amended C6 at the bigint input 5. -/
theorem conversion_helpers_fallback_total_witness :
    JSValue.bigint 5 ≠ JSValue.num JSNumber.nan ∧
    (∃ r, asBigInt (JSValue.bigint 5) 0 = Except.ok r) :=
  ⟨by decide,
   (conversion_helpers_fallback_total 0 false JSNumber.nan "").1 (JSValue.bigint 5) (by decide)⟩

/-- C10: `asNumber` ignores its fallback for number, bigint and string
inputs; in particular a string input that does not convert to a number
yields `NaN`, never the supplied fallback. -/
theorem asNumber_fallback_only_unrecognized (fb fb' : JSNumber) :
    (∀ s, jsStringToNumber s = JSNumber.nan → asNumber (JSValue.str s) fb = JSNumber.nan) ∧
    (∀ n, asNumber (JSValue.num n) fb = asNumber (JSValue.num n) fb') ∧
    (∀ i, asNumber (JSValue.bigint i) fb = asNumber (JSValue.bigint i) fb') ∧
    (∀ s, asNumber (JSValue.str s) fb = asNumber (JSValue.str s) fb') := by
  refine ⟨?_, fun n => rfl, fun i => rfl, fun s => rfl⟩
  intro s hs
  exact hs

/-- Witness for C10 at the unparseable string "abc" and fallback 5. -/
theorem asNumber_fallback_only_unrecognized_witness :
    jsStringToNumber "abc" = JSNumber.nan ∧
    asNumber (JSValue.str "abc") (JSNumber.int 5) = JSNumber.nan :=
  ⟨by decide,
   (asNumber_fallback_only_unrecognized (JSNumber.int 5) (JSNumber.int 5)).1 "abc" (by decide)⟩

/-- The fallback loop returns the first endpoint in configured order
whose probe succeeds, caching exactly it. -/
theorem tryEndpointList_first_success (env : RpcEnv) (chainId : Nat) (cache : ProviderCache) :
    ∀ (l : List String) (e : String), l.find? env.probeOk = some e →
      tryEndpointList env chainId cache l = (Except.ok e, cacheSet cache chainId e) := by
  intro l
  induction l with
  | nil => intro e h; simp [List.find?] at h
  | cons a rest ih =>
    intro e h
    by_cases hp : env.probeOk a = true
    · rw [List.find?_cons_of_pos _ hp] at h
      cases h
      simp [tryEndpointList, hp]
    · rw [List.find?_cons_of_neg _ hp] at h
      rw [tryEndpointList, if_neg hp]
      exact ih e h

/-- When every endpoint's probe fails, the fallback loop exhausts the
list and reports `AllEndpointsFailed`, leaving the cache alone. -/
theorem tryEndpointList_all_fail (env : RpcEnv) (chainId : Nat) (cache : ProviderCache) :
    ∀ l : List String, l.find? env.probeOk = none →
      tryEndpointList env chainId cache l =
        (Except.error (RpcFailure.AllEndpointsFailed chainId), cache) := by
  intro l
  induction l with
  | nil => intro _; rfl
  | cons a rest ih =>
    intro h
    by_cases hp : env.probeOk a = true
    · rw [List.find?_cons_of_pos _ hp] at h; cases h
    · rw [List.find?_cons_of_neg _ hp] at h
      rw [tryEndpointList, if_neg hp]
      exact ih h

/-- C4: `getRpcProvider` first probes any cached handle — probe success
returns it with the cache unchanged, probe failure evicts it and falls
through to fresh acquisition, and a cache miss goes straight there;
fresh acquisition tries the configured endpoints strictly in configured
order, skipping exactly the candidates whose probe fails, and the first
candidate that succeeds is cached and returned. -/
theorem getRpcProvider_cache_and_order (env : RpcEnv) (cache : ProviderCache) (chainId : Nat) :
    (∀ p, cacheGet cache chainId = some p → env.probeOk p = true →
        getRpcProvider env cache chainId = (Except.ok p, cache)) ∧
    (∀ p, cacheGet cache chainId = some p → env.probeOk p = false →
        getRpcProvider env cache chainId =
          getRpcProviderFresh env (cacheDelete cache chainId) chainId) ∧
    (cacheGet cache chainId = none →
        getRpcProvider env cache chainId = getRpcProviderFresh env cache chainId) ∧
    (∀ endpoints e, RPC_ENDPOINTS chainId = some endpoints →
        endpoints.find? env.probeOk = some e →
        getRpcProviderFresh env cache chainId = (Except.ok e, cacheSet cache chainId e)) := by
  refine ⟨?_, ?_, ?_, ?_⟩
  · intro p hp hprobe; simp [getRpcProvider, hp, hprobe]
  · intro p hp hprobe; simp [getRpcProvider, hp, hprobe]
  · intro h; simp [getRpcProvider, h]
  · intro endpoints e hE hF
    cases endpoints with
    | nil => simp [List.find?] at hF
    | cons a rest =>
      simp only [getRpcProviderFresh, hE]
      rw [if_neg (by simp)]
      exact tryEndpointList_first_success env chainId cache (a :: rest) e hF

/-- Witness for C4: a live cached provider for chain 56 is returned
with the cache unchanged. -/
theorem getRpcProvider_cache_and_order_witness :
    cacheGet [(56, "https://bsc.drpc.org")] 56 = some "https://bsc.drpc.org" ∧
    getRpcProvider ⟨fun s => s == "https://bsc.drpc.org"⟩ [(56, "https://bsc.drpc.org")] 56 =
      (Except.ok "https://bsc.drpc.org", [(56, "https://bsc.drpc.org")]) :=
  ⟨rfl,
   (getRpcProvider_cache_and_order ⟨fun s => s == "https://bsc.drpc.org"⟩
      [(56, "https://bsc.drpc.org")] 56).1 "https://bsc.drpc.org" rfl rfl⟩

/-- C8: `getRpcEndpoints` yields the empty list — not a failure — for an
unconfigured chain; acquiring a connection (with no cached handle) for a
chain whose endpoint entry is absent or empty fails with
`NoEndpointsConfigured`, while a non-empty endpoint list all of whose
candidates fail their probe yields `AllEndpointsFailed`. -/
theorem endpoint_failure_modes (env : RpcEnv) (cache : ProviderCache) (chainId : Nat) :
    (RPC_ENDPOINTS chainId = none → getRpcEndpoints chainId = []) ∧
    (getRpcEndpoints chainId = [] → cacheGet cache chainId = none →
        getRpcProvider env cache chainId =
          (Except.error (RpcFailure.NoEndpointsConfigured chainId), cache)) ∧
    (∀ endpoints, RPC_ENDPOINTS chainId = some endpoints → endpoints ≠ [] →
        endpoints.find? env.probeOk = none → cacheGet cache chainId = none →
        getRpcProvider env cache chainId =
          (Except.error (RpcFailure.AllEndpointsFailed chainId), cache)) := by
  refine ⟨?_, ?_, ?_⟩
  · intro h; simp [getRpcEndpoints, h]
  · intro h1 h2
    simp only [getRpcProvider, h2]
    cases hE : RPC_ENDPOINTS chainId with
    | none => simp [getRpcProviderFresh, hE]
    | some l =>
      have hl : l = [] := by rwa [getRpcEndpoints, hE, Option.getD_some] at h1
      subst hl
      simp [getRpcProviderFresh, hE]
  · intro endpoints hE hne hF h2
    cases endpoints with
    | nil => exact absurd rfl hne
    | cons a rest =>
      simp only [getRpcProvider, h2, getRpcProviderFresh, hE]
      rw [if_neg (by simp)]
      exact tryEndpointList_all_fail env chainId cache (a :: rest) hF

/-- Witness for C8 at the unconfigured chain 2 with an empty cache. -/
theorem endpoint_failure_modes_witness :
    getRpcEndpoints 2 = [] ∧ cacheGet [] 2 = none ∧
    getRpcProvider ⟨fun _ => false⟩ [] 2 =
      (Except.error (RpcFailure.NoEndpointsConfigured 2), []) :=
  ⟨rfl, rfl, (endpoint_failure_modes ⟨fun _ => false⟩ [] 2).2.1 rfl rfl⟩

/-- C5: `write` fails fast — with the NotConnected error when the
signer is not connected or exposes no channel, and with the
WrongNetwork error when its active chain differs from the descriptor's
chain — performing no network call in either case; and every contract
`getWriteContract` yields is bound to the signer channel, never to a
fallback endpoint. -/
theorem write_fails_fast (env : WriteEnv) :
    (env.store.isConnected = false ∨ env.store.walletProvider = none →
        write env = (Except.error (Thrown.msg "Wallet not connected"), [])) ∧
    (env.store.isConnected = true → env.store.walletProvider.isSome = true →
        env.store.chainId ≠ some env.config.chainId →
        write env = (Except.error (Thrown.msg (wrongNetworkMessage env.config.chainId)), [])) ∧
    (∀ c, getWriteContract env.store env.config = Except.ok c →
        ∃ w, c = Connection.signer w) := by
  refine ⟨?_, ?_, ?_⟩
  · intro h
    have hg : getWriteContract env.store env.config =
        Except.error (Thrown.msg "Wallet not connected") := by
      rcases h with h | h <;> simp [getWriteContract, h]
    simp [write, writeBody, hg, extractRevertDataThrown]
  · intro h1 h2 h3
    cases hw : env.store.walletProvider with
    | none => rw [hw] at h2; cases h2
    | some w =>
      have hg : getWriteContract env.store env.config =
          Except.error (Thrown.msg (wrongNetworkMessage env.config.chainId)) := by
        simp [getWriteContract, h1, hw, h3]
      simp [write, writeBody, hg, extractRevertDataThrown]
  · intro c hc
    unfold getWriteContract at hc
    by_cases hcond : (!env.store.isConnected || env.store.walletProvider.isNone) = true
    · rw [if_pos hcond] at hc; cases hc
    · rw [if_neg hcond] at hc
      by_cases hch : env.store.chainId ≠ some env.config.chainId
      · rw [if_pos hch] at hc; cases hc
      · rw [if_neg hch] at hc
        cases hc
        exact ⟨_, rfl⟩

/-- Witness for C5: a connected signer on chain 1 writing against a
chain-56 descriptor is rejected with the WrongNetwork error and no
network call. -/
theorem write_fails_fast_witness :
    write ⟨⟨true, some 1, some 7⟩, ⟨"0xToken", 56⟩, none, Except.ok 0, fun _ => none⟩ =
      (Except.error (Thrown.msg (wrongNetworkMessage 56)), []) :=
  (write_fails_fast ⟨⟨true, some 1, some 7⟩, ⟨"0xToken", 56⟩, none, Except.ok 0,
      fun _ => none⟩).2.1 rfl rfl (by decide)

/-- C9: when both write preconditions are violated at once — signer not
connected and active chain differing from the descriptor's —
`getWriteContract` fails with the NotConnected error and never with the
WrongNetwork error: the connection check strictly precedes the chain
check. -/
theorem not_connected_precedes_wrong_network (store : Web3StoreState) (config : ContractConfig)
    (h1 : store.isConnected = false) (_h2 : store.chainId ≠ some config.chainId) :
    getWriteContract store config = Except.error (Thrown.msg "Wallet not connected") ∧
    getWriteContract store config ≠
      Except.error (Thrown.msg (wrongNetworkMessage config.chainId)) := by
  have hg : getWriteContract store config = Except.error (Thrown.msg "Wallet not connected") := by
    simp [getWriteContract, h1]
  refine ⟨hg, ?_⟩
  rw [hg]
  intro hEq
  simp only [Except.error.injEq, Thrown.msg.injEq] at hEq
  have hlen := congrArg String.length hEq
  have h20 : ("Wallet not connected").length = 20 := rfl
  have h38 : ("Wrong network. Please switch to chain ").length = 38 := rfl
  rw [wrongNetworkMessage, String.length_append, h20, h38] at hlen
  omega

/-- Witness for C9: a disconnected store whose chain is `null` against a
chain-56 descriptor. -/
theorem not_connected_precedes_wrong_network_witness :
    getWriteContract ⟨false, none, none⟩ ⟨"0xToken", 56⟩ =
      Except.error (Thrown.msg "Wallet not connected") :=
  (not_connected_precedes_wrong_network ⟨false, none, none⟩ ⟨"0xToken", 56⟩ rfl (by decide)).1

/-- C2: evaluated at a write whose preflight simulation fails with a
payload that decodes to `Error("Insufficient balance")`: no submission
occurs, but the surfaced failure is the raw preflight error rather than
a failure whose message is "Insufficient balance" — the decoder builds
exactly that message (second conjunct) and then swallows it, because
its `throw new Error(msg)` stands inside the `try` whose `catch`
rethrows the original error. -/
theorem write_insufficient_balance_eval :
    write ⟨⟨true, some 56, some 1⟩, ⟨"0xToken", 56⟩,
           some ⟨"execution reverted", some "0x08c379a0", none, none⟩,
           Except.ok 99,
           fun d => if d = "0x08c379a0" then some ⟨"Error", some "Insufficient balance"⟩
                    else none⟩ =
      (Except.error (Thrown.raw ⟨"execution reverted", some "0x08c379a0", none, none⟩),
       [NetworkCall.preflightCall]) ∧
    decodedMessage (some ⟨"Error", some "Insufficient balance"⟩) = "Insufficient balance" ∧
    Thrown.raw ⟨"execution reverted", some "0x08c379a0", none, none⟩ ≠
      Thrown.msg "Insufficient balance" :=
  ⟨rfl, rfl, by decide⟩

end Web3Client
